import Mathlib

/-!
Shallow embedding of three source files of the azuredatastudio repository:

* `extensions/query-history/src/queryHistoryProvider.ts` (`QueryHistoryProvider`)
* `src/sql/workbench/contrib/extensions/browser/staticRecommendations.ts`
  (`StaticRecommendations`)
* an unnamed test file defining `DacFxTestService`

TypeScript objects become Lean structures, class methods become functions
from the explicit provider/service state to a result together with the new
state, and the host-provided environment (open text documents, the
connection API, the clock, the outcome of a secret-storage write) is passed
in explicitly.  `Promise` rejection of a storage write is modelled by an
explicit outcome value that the operations thread through.
-/

/- ----------------------------------------------------------------------
   Query history provider (queryHistoryProvider.ts)
   ---------------------------------------------------------------------- -/

/-- The storage key `STORAGE_KEY = 'queryHistory.historyItems'` (line 13). -/
def STORAGE_KEY : String := "queryHistory.historyItems"

/-- Line 14: `const DEFAULT_CAPTURE_ENABLED = true`. -/
def DEFAULT_CAPTURE_ENABLED : Bool := true

/-- Line 15: `const DEFAULT_PERSIST_HISTORY = true`. -/
def DEFAULT_PERSIST_HISTORY : Bool := true

/-- The fields of `azdata.connection.ConnectionProfile` actually read by the
provider (`getTreeItem`, line 84); the remaining fields are irrelevant to
every claim and omitted. -/
structure ConnectionProfile where
  serverName : String
  databaseName : String
deriving Repr, DecidableEq

/-- A query history item as constructed at line 54:
`{ queryText, connectionProfile, timestamp: new Date(), isSuccess }`.
The timestamp (`new Date()`) is modelled as a natural number supplied by the
environment clock. -/
structure QueryHistoryItem where
  queryText : String
  connectionProfile : Option ConnectionProfile
  timestamp : Nat
  isSuccess : Bool
deriving Repr, DecidableEq

/-- One entry of `queryInfo.messages`; only `isError` is read (line 52). -/
structure QueryMessage where
  isError : Bool
deriving Repr, DecidableEq

/-- The part of `azdata.queryeditor.QueryInfo` read by the handler:
`batchRanges` (line 50) and `messages` (line 52).  A `vscode.Range` is
modelled as an opaque index into the document text. -/
structure QueryInfo where
  batchRanges : List Nat
  messages : List QueryMessage
deriving Repr, DecidableEq

/-- An open `vscode.TextDocument`: its URI (already in `toString()` form)
and `getText`, which may return `undefined` for a range (line 50 uses
`textDocument.getText(r) ?? ''`). -/
structure TextDocument where
  uri : String
  getText : Nat → Option String

/-- The mutable fields of `QueryHistoryProvider` that the claims are about
(lines 24-26). -/
structure ProviderState where
  queryHistoryItems : List QueryHistoryItem
  captureEnabled : Bool
  persistHistory : Bool
deriving Repr, DecidableEq

/-- The value the secret storage holds under `STORAGE_KEY`: `none` when the
key is absent (or was deleted), `some l` when the JSON serialization of the
list `l` is stored.  `JSON.stringify`/`JSON.parse` round-tripping is
modelled as the identity on lists. -/
abbrev SecretValue := Option (List QueryHistoryItem)

/-- Outcome of one `secrets.store` request: the promise either resolves or
rejects with an error message. -/
inductive StoreOutcome where
  | ok : StoreOutcome
  | failure (msg : String) : StoreOutcome
deriving Repr, DecidableEq

/-- Host environment seen by the query event handler: the open text
documents (`vscode.workspace.textDocuments`, line 40), the connection
lookup (`azdata.connection.getConnection`, line 51) and the clock
(`new Date()`, line 54). -/
structure QueryEventEnv where
  textDocuments : List TextDocument
  getConnection : String → Option ConnectionProfile
  now : Nat

/-- `EOL` from `os`, used to join batch texts (line 50). -/
def EOL : String := "\n"

/-- Result of running `storeHistory` (lines 120-126): the storage value
afterwards, how many `secrets.store` calls were issued, and the error the
returned promise rejected with, if any. -/
structure StoreResult where
  storage : SecretValue
  attempts : Nat
  error : Option String
deriving Repr, DecidableEq

/-- `QueryHistoryProvider.storeHistory` (lines 120-126): when
`_persistHistory` is set it issues exactly one `secrets.store` of the
serialized item list and forwards that promise (so a rejection propagates);
otherwise it does nothing. -/
def storeHistory (persistHistory : Bool) (items : List QueryHistoryItem)
    (storage : SecretValue) (outcome : StoreOutcome) : StoreResult :=
  if persistHistory then
    match outcome with
    | .ok => { storage := some items, attempts := 1, error := none }
    | .failure e => { storage := storage, attempts := 1, error := some e }
  else
    { storage := storage, attempts := 0, error := none }

/-- Observable result of one provider operation: the provider state and
storage afterwards, whether `_onDidChangeTreeData.fire` ran, how many
`secrets.store` calls were issued, the error propagated to the caller (if
the operation's promise rejected), and whether the missing-document branch
logged to `console.error` (line 46). -/
structure MutationResult where
  state : ProviderState
  storage : SecretValue
  fired : Bool
  storeAttempts : Nat
  error : Option String
  loggedMissingDocument : Bool
deriving Repr, DecidableEq

/-- `QueryHistoryProvider.clearAll` (lines 68-72): empty the in-memory
list, `await storeHistory()` (a rejection there propagates and skips the
fire), then fire the tree-data change event. -/
def clearAll (s : ProviderState) (storage : SecretValue)
    (outcome : StoreOutcome) : MutationResult :=
  let s' := { s with queryHistoryItems := [] }
  let st := storeHistory s'.persistHistory s'.queryHistoryItems storage outcome
  { state := s', storage := st.storage, fired := st.error.isNone,
    storeAttempts := st.attempts, error := st.error,
    loggedMissingDocument := false }

/-- `QueryHistoryProvider.deleteItem` (lines 74-78): filter the item out
(`n !== item`; reference inequality on records is modelled as structural
inequality), `await storeHistory()`, then fire.  -/
def deleteItem (s : ProviderState) (item : QueryHistoryItem)
    (storage : SecretValue) (outcome : StoreOutcome) : MutationResult :=
  let s' := { s with
    queryHistoryItems := s.queryHistoryItems.filter (fun n => n != item) }
  let st := storeHistory s'.persistHistory s'.queryHistoryItems storage outcome
  { state := s', storage := st.storage, fired := st.error.isNone,
    storeAttempts := st.attempts, error := st.error,
    loggedMissingDocument := false }

/-- A `MutationResult` for a branch that touches nothing and completes
normally. -/
def unchangedResult (s : ProviderState) (storage : SecretValue)
    (logged : Bool) : MutationResult :=
  { state := s, storage := storage, fired := false, storeAttempts := 0,
    error := none, loggedMissingDocument := logged }

/-- The `onQueryEvent` listener registered in the constructor
(lines 38-58).  Guard order follows line 39
(`this._captureEnabled && queryInfo && type === 'queryStop'`).  The URI
comparison at line 43 re-parses the event URI only to normalize its format;
it is modelled as string equality of the document URIs.  When no open
document matches, the handler logs and returns (lines 44-48).  Otherwise it
joins the batch texts with `EOL` (line 50), looks up the connection
(line 51), computes the success flag (line 52: no message has `isError`),
unshifts the new item (line 54), awaits `storeHistory` (line 55; a
rejection propagates and skips the fire) and fires the tree-data change
event (line 56). -/
def onQueryEvent (env : QueryEventEnv) (type : String)
    (documentUri : String) (queryInfo : Option QueryInfo)
    (s : ProviderState) (storage : SecretValue)
    (outcome : StoreOutcome) : MutationResult :=
  if s.captureEnabled && queryInfo.isSome && (type == "queryStop") then
    match queryInfo with
    | none => unchangedResult s storage false
    | some qi =>
      match env.textDocuments.find? (fun e => e.uri == documentUri) with
      | none =>
        unchangedResult s storage true
      | some textDocument =>
        let queryText := String.intercalate EOL
          (qi.batchRanges.map (fun r => (textDocument.getText r).getD ""))
        let connectionProfile := env.getConnection documentUri
        let isSuccess := !(qi.messages.any (fun m => m.isError))
        let newItem : QueryHistoryItem :=
          { queryText := queryText, connectionProfile := connectionProfile,
            timestamp := env.now, isSuccess := isSuccess }
        let s' := { s with queryHistoryItems := newItem :: s.queryHistoryItems }
        let st := storeHistory s'.persistHistory s'.queryHistoryItems storage
          outcome
        { state := s', storage := st.storage, fired := st.error.isNone,
          storeAttempts := st.attempts, error := st.error,
          loggedMissingDocument := false }
  else
    unchangedResult s storage false

/-- `QueryHistoryProvider.getChildren` (lines 89-92): ignores its optional
element argument and returns the top-level item list. -/
def getChildren (s : ProviderState) (element : Option QueryHistoryItem) :
    List QueryHistoryItem :=
  s.queryHistoryItems

/- ----------------------------------------------------------------------
   DacFxTestService (unnamed test file, src/unnamed/part_000)
   ---------------------------------------------------------------------- -/

/-- Line 9: `export const deployOperationId = 'deploy dacpac'`. -/
def deployOperationId : String := "deploy dacpac"

/-- Line 10: `export const extractOperationId = 'extract dacpac'`. -/
def extractOperationId : String := "extract dacpac"

/-- Line 11: `export const exportOperationId = 'export bacpac'`. -/
def exportOperationId : String := "export bacpac"

/-- Line 12: `export const importOperationId = 'import bacpac'`. -/
def importOperationId : String := "import bacpac"

/-- Line 13: `export const generateScript = 'generate script'`. -/
def generateScript : String := "generate script"

/-- Line 14: `export const generateDeployPlan = 'generate deploy plan'`. -/
def generateDeployPlan : String := "generate deploy plan"

/-- Line 15: `export const validateStreamingJob = 'validate streaming job'`. -/
def validateStreamingJob : String := "validate streaming job"

/-- `mssql.DacFxResult`: the fields of the stub's result record
(lines 18-22). -/
structure DacFxResult where
  success : Bool
  operationId : String
  errorMessage : String
deriving Repr, DecidableEq

/-- The whole mutable state of a `DacFxTestService` instance: its single
`dacfxResult` field. -/
structure DacFxTestService where
  dacfxResult : DacFxResult
deriving Repr, DecidableEq

/-- The freshly constructed service (lines 18-24): `dacfxResult` starts as
`{ success: true, operationId: 'test', errorMessage: '' }`. -/
def initService : DacFxTestService :=
  { dacfxResult := { success := true, operationId := "test", errorMessage := "" } }

/-- `azdata.TaskExecutionMode`. -/
inductive TaskExecutionMode where
  | execute : TaskExecutionMode
  | script : TaskExecutionMode
  | executeAndScript : TaskExecutionMode
deriving Repr, DecidableEq

/-- `mssql.ExtractTarget`, modelled as an opaque code: the stub never reads
its argument values. -/
abbrev ExtractTarget := Nat

/-- What a method's resolved promise carries when its payload is a
`DacFxResult`: either the service's own `dacfxResult` record (the methods
`return Promise.resolve(this.dacfxResult)`, so the caller holds an alias of
the shared record), or a fresh record. -/
inductive DacFxRef where
  | shared : DacFxRef
  | fresh (r : DacFxResult) : DacFxRef
deriving Repr, DecidableEq

/-- Dereference a `DacFxRef` against the service state current at the time
of the observation: reading through the shared alias sees the service's
`dacfxResult` as it is now. -/
def readRef (ref : DacFxRef) (svc : DacFxTestService) : DacFxResult :=
  match ref with
  | .shared => svc.dacfxResult
  | .fresh r => r

/-- `DacFxTestService.exportBacpac` (lines 26-29): assigns
`exportOperationId` to `this.dacfxResult.operationId` and resolves with
`this.dacfxResult` itself. -/
def exportBacpac (svc : DacFxTestService) (databaseName packageFilePath
    ownerUri : String) (taskExecutionMode : TaskExecutionMode) :
    DacFxRef × DacFxTestService :=
  let svc' := { svc with dacfxResult :=
    { svc.dacfxResult with operationId := exportOperationId } }
  (.shared, svc')

/-- `DacFxTestService.importBacpac` (lines 30-33). -/
def importBacpac (svc : DacFxTestService) (packageFilePath databaseName
    ownerUri : String) (taskExecutionMode : TaskExecutionMode) :
    DacFxRef × DacFxTestService :=
  let svc' := { svc with dacfxResult :=
    { svc.dacfxResult with operationId := importOperationId } }
  (.shared, svc')

/-- `DacFxTestService.extractDacpac` (lines 34-37). -/
def extractDacpac (svc : DacFxTestService) (databaseName packageFilePath
    applicationName applicationVersion ownerUri : String)
    (taskExecutionMode : TaskExecutionMode) : DacFxRef × DacFxTestService :=
  let svc' := { svc with dacfxResult :=
    { svc.dacfxResult with operationId := extractOperationId } }
  (.shared, svc')

/-- `DacFxTestService.createProjectFromDatabase` (lines 38-41); note the
source assigns `importOperationId` here. -/
def createProjectFromDatabase (svc : DacFxTestService) (databaseName
    targetFilePath applicationName applicationVersion ownerUri : String)
    (extractTarget : ExtractTarget) (taskExecutionMode : TaskExecutionMode) :
    DacFxRef × DacFxTestService :=
  let svc' := { svc with dacfxResult :=
    { svc.dacfxResult with operationId := importOperationId } }
  (.shared, svc')

/-- `DacFxTestService.deployDacpac` (lines 42-45). -/
def deployDacpac (svc : DacFxTestService) (packageFilePath databaseName :
    String) (upgradeExisting : Bool) (ownerUri : String)
    (taskExecutionMode : TaskExecutionMode)
    (sqlCommandVariableValues : Option (List (String × String))) :
    DacFxRef × DacFxTestService :=
  let svc' := { svc with dacfxResult :=
    { svc.dacfxResult with operationId := deployOperationId } }
  (.shared, svc')

/-- `DacFxTestService.generateDeployScript` (lines 46-49): assigns the
`generateScript` constant and resolves with `this.dacfxResult`. -/
def generateDeployScript (svc : DacFxTestService) (packageFilePath
    databaseName ownerUri : String) (taskExecutionMode : TaskExecutionMode)
    (sqlCommandVariableValues : Option (List (String × String))) :
    DacFxRef × DacFxTestService :=
  let svc' := { svc with dacfxResult :=
    { svc.dacfxResult with operationId := generateScript } }
  (.shared, svc')

/-- `mssql.GenerateDeployPlanResult` (lines 52-57). -/
structure GenerateDeployPlanResult where
  operationId : String
  success : Bool
  errorMessage : String
  report : String
deriving Repr, DecidableEq

/-- `DacFxTestService.generateDeployPlan` (lines 50-59): assigns the
`generateDeployPlan` constant to the shared record, then builds and
resolves with a fresh `GenerateDeployPlanResult`.  (Named with a `Method`
suffix because the module-level constant already carries the source name
`generateDeployPlan`.) -/
def generateDeployPlanMethod (svc : DacFxTestService) (packageFilePath
    databaseName ownerUri : String) (taskExecutionMode : TaskExecutionMode) :
    GenerateDeployPlanResult × DacFxTestService :=
  let svc' := { svc with dacfxResult :=
    { svc.dacfxResult with operationId := generateDeployPlan } }
  let deployPlan : GenerateDeployPlanResult :=
    { operationId := generateDeployPlan, success := true,
      errorMessage := "", report := generateDeployPlan }
  (deployPlan, svc')

/-- One entry `{ value, description, propertyName }` of the deployment
options (lines 67-71). -/
structure DeploymentOptionProperty (α : Type) where
  value : α
  description : String
  propertyName : String
deriving Repr, DecidableEq

/-- `mssql.DeploymentOptions` as built at lines 66-77; the two map-shaped
fields are modelled as association lists. -/
structure DeploymentOptions where
  doNotDropObjectTypes : DeploymentOptionProperty (List String)
  excludeObjectTypes : DeploymentOptionProperty (List String)
  optionsMapTable : List (String × DeploymentOptionProperty Bool)
  includeObjects : List (String × Nat)
deriving Repr, DecidableEq

/-- `mssql.DacFxOptionsResult` (lines 63-78). -/
structure DacFxOptionsResult where
  success : Bool
  errorMessage : String
  deploymentOptions : DeploymentOptions
deriving Repr, DecidableEq

/-- `DacFxTestService.getOptionsFromProfile` (lines 60-81): resolves with a
fresh sample options result; it does not touch `dacfxResult`. -/
def getOptionsFromProfile (svc : DacFxTestService) (profilePath : String) :
    DacFxOptionsResult × DacFxTestService :=
  let sampleDesc := "Sample Description text"
  let sampleName := "Sample Property Name"
  let optionsResult : DacFxOptionsResult :=
    { success := true, errorMessage := "",
      deploymentOptions :=
        { doNotDropObjectTypes :=
            { value := [], description := sampleDesc, propertyName := sampleName },
          excludeObjectTypes :=
            { value := [], description := sampleDesc, propertyName := sampleName },
          optionsMapTable :=
            [("Sample Display Name Option1",
              { value := false, description := sampleDesc, propertyName := sampleName }),
             ("Sample Display Name Option2",
              { value := false, description := sampleDesc, propertyName := sampleName })],
          includeObjects :=
            [("Sample Include Object Type1", 0),
             ("Sample Include Object Type2", 2)] } }
  (optionsResult, svc)

/-- `mssql.ValidateStreamingJobResult` (lines 84-87). -/
structure ValidateStreamingJobResult where
  success : Bool
  errorMessage : String
deriving Repr, DecidableEq

/-- `DacFxTestService.validateStreamingJob` (lines 82-89): assigns the
`validateStreamingJob` constant to the shared record and resolves with a
fresh `{ success: true, errorMessage: '' }`.  (Named with a `Method` suffix
because the module-level constant carries the source name.) -/
def validateStreamingJobMethod (svc : DacFxTestService) (packageFilePath
    createStreamingJobTsql : String) :
    ValidateStreamingJobResult × DacFxTestService :=
  let svc' := { svc with dacfxResult :=
    { svc.dacfxResult with operationId := validateStreamingJob } }
  let streamingJobValidationResult : ValidateStreamingJobResult :=
    { success := true, errorMessage := "" }
  (streamingJobValidationResult, svc')

/-- Uniform view of one call to the six `DacFxResult`-returning methods,
carrying the method's arguments; used to state properties quantified over
"any method of the service". -/
inductive DacFxCall where
  | exportCall (databaseName packageFilePath ownerUri : String)
      (taskExecutionMode : TaskExecutionMode) : DacFxCall
  | importCall (packageFilePath databaseName ownerUri : String)
      (taskExecutionMode : TaskExecutionMode) : DacFxCall
  | extractCall (databaseName packageFilePath applicationName
      applicationVersion ownerUri : String)
      (taskExecutionMode : TaskExecutionMode) : DacFxCall
  | createProjectCall (databaseName targetFilePath applicationName
      applicationVersion ownerUri : String) (extractTarget : ExtractTarget)
      (taskExecutionMode : TaskExecutionMode) : DacFxCall
  | deployCall (packageFilePath databaseName : String)
      (upgradeExisting : Bool) (ownerUri : String)
      (taskExecutionMode : TaskExecutionMode)
      (sqlCommandVariableValues : Option (List (String × String))) : DacFxCall
  | generateScriptCall (packageFilePath databaseName ownerUri : String)
      (taskExecutionMode : TaskExecutionMode)
      (sqlCommandVariableValues : Option (List (String × String))) : DacFxCall

/-- Dispatch a `DacFxCall` to the corresponding method. -/
def runCall (c : DacFxCall) (svc : DacFxTestService) :
    DacFxRef × DacFxTestService :=
  match c with
  | .exportCall a b u m => exportBacpac svc a b u m
  | .importCall a b u m => importBacpac svc a b u m
  | .extractCall a b n v u m => extractDacpac svc a b n v u m
  | .createProjectCall a b n v u t m => createProjectFromDatabase svc a b n v u t m
  | .deployCall a b e u m vars => deployDacpac svc a b e u m vars
  | .generateScriptCall a b u m vars => generateDeployScript svc a b u m vars

/-- The operation-id constant the source assigns for each method
(`createProjectFromDatabase` assigns `importOperationId`, line 39). -/
def callConstant (c : DacFxCall) : String :=
  match c with
  | .exportCall .. => exportOperationId
  | .importCall .. => importOperationId
  | .extractCall .. => extractOperationId
  | .createProjectCall .. => importOperationId
  | .deployCall .. => deployOperationId
  | .generateScriptCall .. => generateScript

/-- Service states reachable from the freshly constructed service by any
sequence of method calls with any arguments. -/
inductive Reachable : DacFxTestService → Prop where
  | init : Reachable initService
  | callStep (c : DacFxCall) {svc : DacFxTestService} :
      Reachable svc → Reachable (runCall c svc).2
  | generateDeployPlanStep (a b u : String) (m : TaskExecutionMode)
      {svc : DacFxTestService} : Reachable svc →
      Reachable (generateDeployPlanMethod svc a b u m).2
  | getOptionsFromProfileStep (p : String) {svc : DacFxTestService} :
      Reachable svc → Reachable (getOptionsFromProfile svc p).2
  | validateStreamingJobStep (a b : String) {svc : DacFxTestService} :
      Reachable svc → Reachable (validateStreamingJobMethod svc a b).2

/- ----------------------------------------------------------------------
   StaticRecommendations (staticRecommendations.ts)
   ---------------------------------------------------------------------- -/

/-- `ExtensionRecommendationReason` from the platform's extension
recommendation contract; the provider uses only `Application`. -/
inductive ExtensionRecommendationReason where
  | Workspace : ExtensionRecommendationReason
  | Application : ExtensionRecommendationReason
deriving Repr, DecidableEq

/-- An `ExtensionRecommendation` record as built at line 22:
`{ extensionId, reason: { reasonId, reasonText }, source }`. -/
structure ExtensionRecommendation where
  extensionId : String
  reasonId : ExtensionRecommendationReason
  reasonText : String
  source : String
deriving Repr, DecidableEq

/-- The localized text `localize('defaultRecommendations', ...)` at
line 22, modelled by its default English value. -/
def defaultRecommendationText : String :=
  "This extension is recommended by Azure Data Studio."

/-- The `StaticRecommendations` constructor body (lines 17-23): build the
`_recommendations` list once by mapping `productService.recommendedExtensions`
to recommendation records. -/
def staticRecommendations (recommendedExtensions : List String) :
    List ExtensionRecommendation :=
  recommendedExtensions.map (fun r =>
    { extensionId := r, reasonId := .Application,
      reasonText := defaultRecommendationText, source := "application" })

/-- `StaticRecommendations.doActivate` (lines 25-27): its body is
`return;`, so the recommendations state is returned unchanged. -/
def doActivate (recommendations : List ExtensionRecommendation) :
    List ExtensionRecommendation :=
  recommendations


/- ----------------------------------------------------------------------
   Concrete fixtures used by witnesses and counterexamples
   ---------------------------------------------------------------------- -/

/-- A sample open text document. -/
def sampleDoc : TextDocument :=
  { uri := "untitled:q1", getText := fun _ => some "SELECT 1" }

/-- An environment in which `sampleDoc` is the only open document. -/
def sampleEnv : QueryEventEnv :=
  { textDocuments := [sampleDoc], getConnection := fun _ => none, now := 7 }

/-- An environment with no open documents. -/
def emptyEnv : QueryEventEnv :=
  { textDocuments := [], getConnection := fun _ => none, now := 0 }

/-- A sample query info with one batch and no error messages. -/
def sampleInfo : QueryInfo := { batchRanges := [0], messages := [] }

/-- A sample previously recorded history item. -/
def oldItem : QueryHistoryItem :=
  { queryText := "old", connectionProfile := none, timestamp := 1,
    isSuccess := true }

/-- A provider state with one recorded item, capture and persistence on. -/
def sampleState : ProviderState :=
  { queryHistoryItems := [oldItem], captureEnabled := true,
    persistHistory := true }

/-- A provider state with capture on but persistence off. -/
def noPersistState : ProviderState :=
  { queryHistoryItems := [], captureEnabled := true,
    persistHistory := false }

/- ----------------------------------------------------------------------
   Theorems
   ---------------------------------------------------------------------- -/

/-- C10: `getChildren` returns the entire top-level history list for every
argument; the result is the same whether the element parameter is absent or
any history item. -/
theorem C10_getChildren_ignores_element (s : ProviderState)
    (element : Option QueryHistoryItem) (x : QueryHistoryItem) :
    getChildren s element = s.queryHistoryItems ∧
    getChildren s (some x) = getChildren s none :=
  ⟨rfl, rfl⟩

/-- C2: for every captured query-stop event that records an item, the new
item is placed at the front of the history and the previously recorded
items keep their relative order (the tail is exactly the old list). -/
theorem C2_new_item_prepended (env : QueryEventEnv) (uri : String)
    (qi : QueryInfo) (s : ProviderState) (storage : SecretValue)
    (outcome : StoreOutcome) (td : TextDocument)
    (hcap : s.captureEnabled = true)
    (hdoc : env.textDocuments.find? (fun e => e.uri == uri) = some td) :
    ∃ newItem,
      (onQueryEvent env "queryStop" uri (some qi) s storage
          outcome).state.queryHistoryItems
        = newItem :: s.queryHistoryItems := by
  simp only [onQueryEvent, hcap, hdoc, Option.isSome_some, Bool.true_and,
    beq_self_eq_true, Bool.and_true, if_true]
  exact ⟨_, rfl⟩

/-- C2 witness: a concrete captured query-stop event prepends its item to
the previously recorded list. -/
theorem C2_new_item_prepended_witness :
    ∃ newItem,
      (onQueryEvent sampleEnv "queryStop" "untitled:q1" (some sampleInfo)
          { queryHistoryItems := [oldItem], captureEnabled := true,
            persistHistory := true }
          none .ok).state.queryHistoryItems
        = newItem :: [oldItem] :=
  C2_new_item_prepended sampleEnv "untitled:q1" sampleInfo
    { queryHistoryItems := [oldItem], captureEnabled := true,
      persistHistory := true }
    none .ok sampleDoc rfl rfl

/-- C6: a query-stop event whose URI matches no open text document
completes without an error, leaves the in-memory list and the storage
unchanged, fires no tree-data change, and only logs the missing
document. -/
theorem C6_missing_document_noop (env : QueryEventEnv) (uri : String)
    (qi : QueryInfo) (s : ProviderState) (storage : SecretValue)
    (outcome : StoreOutcome)
    (hcap : s.captureEnabled = true)
    (hdoc : env.textDocuments.find? (fun e => e.uri == uri) = none) :
    onQueryEvent env "queryStop" uri (some qi) s storage outcome =
      { state := s, storage := storage, fired := false, storeAttempts := 0,
        error := none, loggedMissingDocument := true } := by
  simp [onQueryEvent, hcap, hdoc, unchangedResult]

/-- C6 witness: a concrete query-stop event with no matching document is a
logged no-op. -/
theorem C6_missing_document_noop_witness :
    onQueryEvent emptyEnv "queryStop" "untitled:q1" (some sampleInfo)
        { queryHistoryItems := [oldItem], captureEnabled := true,
          persistHistory := true }
        (some [oldItem]) .ok =
      { state := { queryHistoryItems := [oldItem], captureEnabled := true,
                   persistHistory := true },
        storage := some [oldItem], fired := false, storeAttempts := 0,
        error := none, loggedMissingDocument := true } :=
  C6_missing_document_noop emptyEnv "untitled:q1" sampleInfo
    { queryHistoryItems := [oldItem], captureEnabled := true,
      persistHistory := true }
    (some [oldItem]) .ok rfl rfl

/-- C9: when capture is disabled, or the event type is not `queryStop`, or
no query info is supplied, the handler leaves the state and the storage
unchanged, fires no tree-data-change notification, issues no store request
and reports no error. -/
theorem C9_uncaptured_event_noop (env : QueryEventEnv) (type uri : String)
    (queryInfo : Option QueryInfo) (s : ProviderState)
    (storage : SecretValue) (outcome : StoreOutcome)
    (h : s.captureEnabled = false ∨ type ≠ "queryStop" ∨ queryInfo = none) :
    onQueryEvent env type uri queryInfo s storage outcome =
      { state := s, storage := storage, fired := false, storeAttempts := 0,
        error := none, loggedMissingDocument := false } := by
  rcases h with h | h | h
  · simp [onQueryEvent, h, unchangedResult]
  · have hb : (type == "queryStop") = false := by simpa using h
    simp [onQueryEvent, hb, unchangedResult]
  · subst h
    simp [onQueryEvent, unchangedResult]

/-- C9 witness: a concrete event with capture disabled changes nothing. -/
theorem C9_uncaptured_event_noop_witness :
    onQueryEvent sampleEnv "queryStop" "untitled:q1" (some sampleInfo)
        { queryHistoryItems := [oldItem], captureEnabled := false,
          persistHistory := true }
        none .ok =
      { state := { queryHistoryItems := [oldItem], captureEnabled := false,
                   persistHistory := true },
        storage := none, fired := false, storeAttempts := 0,
        error := none, loggedMissingDocument := false } :=
  C9_uncaptured_event_noop sampleEnv "queryStop" "untitled:q1"
    (some sampleInfo)
    { queryHistoryItems := [oldItem], captureEnabled := false,
      persistHistory := true }
    none .ok (Or.inl rfl)

/-- C1 counterexample: with the persist-history setting disabled, a
captured query-stop event adds an item to the in-memory list, completes
without error, yet issues no store, so afterwards the storage does not hold
the in-memory list (the claim fails as stated for such mutations). -/
theorem C1_counterexample :
    ((onQueryEvent sampleEnv "queryStop" "untitled:q1" (some sampleInfo)
        noPersistState none .ok).error = none) ∧
    ¬ ((onQueryEvent sampleEnv "queryStop" "untitled:q1" (some sampleInfo)
        noPersistState none .ok).storage =
      some (onQueryEvent sampleEnv "queryStop" "untitled:q1"
        (some sampleInfo) noPersistState none .ok).state.queryHistoryItems) := by
  constructor
  · rfl
  · intro h
    simp [onQueryEvent, sampleEnv, sampleDoc, sampleInfo, noPersistState,
      storeHistory] at h

/-- C1 amended: when the persist-history setting is enabled and the
storage write succeeds, every mutation of the query history (a captured
query-stop event that records an item, `deleteItem`, `clearAll`) leaves
the persisted value equal to the in-memory item list. -/
theorem C1_persisted_matches_memory (s : ProviderState)
    (storage : SecretValue) (item : QueryHistoryItem)
    (env : QueryEventEnv) (uri : String) (qi : QueryInfo)
    (td : TextDocument)
    (hpersist : s.persistHistory = true)
    (hcap : s.captureEnabled = true)
    (hdoc : env.textDocuments.find? (fun e => e.uri == uri) = some td) :
    ((clearAll s storage .ok).storage
        = some (clearAll s storage .ok).state.queryHistoryItems) ∧
    ((deleteItem s item storage .ok).storage
        = some (deleteItem s item storage .ok).state.queryHistoryItems) ∧
    ((onQueryEvent env "queryStop" uri (some qi) s storage .ok).storage
        = some (onQueryEvent env "queryStop" uri (some qi) s storage
            .ok).state.queryHistoryItems) := by
  refine ⟨?_, ?_, ?_⟩ <;>
    simp [clearAll, deleteItem, onQueryEvent, storeHistory, hpersist, hcap,
      hdoc]

/-- C1 witness: the amended statement at a concrete state with persistence
enabled. -/
theorem C1_persisted_matches_memory_witness :
    ((clearAll sampleState none .ok).storage
        = some (clearAll sampleState none .ok).state.queryHistoryItems) ∧
    ((deleteItem sampleState oldItem none .ok).storage
        = some (deleteItem sampleState oldItem none
            .ok).state.queryHistoryItems) ∧
    ((onQueryEvent sampleEnv "queryStop" "untitled:q1" (some sampleInfo)
          sampleState none .ok).storage
        = some (onQueryEvent sampleEnv "queryStop" "untitled:q1"
            (some sampleInfo) sampleState none
            .ok).state.queryHistoryItems) :=
  C1_persisted_matches_memory sampleState none oldItem sampleEnv
    "untitled:q1" sampleInfo sampleDoc rfl rfl rfl

/-- C7: when persistence is enabled and the secret-storage write fails,
each mutation operation (`clearAll`, `deleteItem`, a captured query-stop
event) propagates the failure to its caller and issues exactly one store
request (no retry, no swallowed error). -/
theorem C7_store_failure_propagates (s : ProviderState)
    (storage : SecretValue) (item : QueryHistoryItem)
    (env : QueryEventEnv) (uri : String) (qi : QueryInfo)
    (td : TextDocument) (e : String)
    (hpersist : s.persistHistory = true)
    (hcap : s.captureEnabled = true)
    (hdoc : env.textDocuments.find? (fun e => e.uri == uri) = some td) :
    ((clearAll s storage (.failure e)).error = some e ∧
      (clearAll s storage (.failure e)).storeAttempts = 1) ∧
    ((deleteItem s item storage (.failure e)).error = some e ∧
      (deleteItem s item storage (.failure e)).storeAttempts = 1) ∧
    ((onQueryEvent env "queryStop" uri (some qi) s storage
          (.failure e)).error = some e ∧
      (onQueryEvent env "queryStop" uri (some qi) s storage
          (.failure e)).storeAttempts = 1) := by
  refine ⟨⟨?_, ?_⟩, ⟨?_, ?_⟩, ⟨?_, ?_⟩⟩ <;>
    simp [clearAll, deleteItem, onQueryEvent, storeHistory, hpersist, hcap,
      hdoc]

/-- C7 witness: the failure propagation at a concrete state and a concrete
rejected store. -/
theorem C7_store_failure_propagates_witness :
    ((clearAll sampleState none (.failure "disk full")).error
        = some "disk full" ∧
      (clearAll sampleState none (.failure "disk full")).storeAttempts
        = 1) ∧
    ((deleteItem sampleState oldItem none (.failure "disk full")).error
        = some "disk full" ∧
      (deleteItem sampleState oldItem none
          (.failure "disk full")).storeAttempts = 1) ∧
    ((onQueryEvent sampleEnv "queryStop" "untitled:q1" (some sampleInfo)
          sampleState none (.failure "disk full")).error
        = some "disk full" ∧
      (onQueryEvent sampleEnv "queryStop" "untitled:q1" (some sampleInfo)
          sampleState none (.failure "disk full")).storeAttempts = 1) :=
  C7_store_failure_propagates sampleState none oldItem sampleEnv
    "untitled:q1" sampleInfo sampleDoc "disk full" rfl rfl rfl

/-- C3: each DacFx stub method overwrites the operation id of the record
its promise resolves with by the constant designated for that method,
whatever the arguments and the prior service state. -/
theorem C3_operation_ids_are_constants (svc : DacFxTestService)
    (a b n v u : String) (m : TaskExecutionMode) (eb : Bool)
    (vars : Option (List (String × String))) :
    (readRef (deployDacpac svc a b eb u m vars).1
        (deployDacpac svc a b eb u m vars).2).operationId
      = "deploy dacpac" ∧
    (readRef (extractDacpac svc a b n v u m).1
        (extractDacpac svc a b n v u m).2).operationId
      = "extract dacpac" ∧
    (readRef (exportBacpac svc a b u m).1
        (exportBacpac svc a b u m).2).operationId
      = "export bacpac" ∧
    (readRef (importBacpac svc a b u m).1
        (importBacpac svc a b u m).2).operationId
      = "import bacpac" ∧
    (readRef (generateDeployScript svc a b u m vars).1
        (generateDeployScript svc a b u m vars).2).operationId
      = "generate script" ∧
    (generateDeployPlanMethod svc a b u m).1.operationId
      = "generate deploy plan" :=
  ⟨rfl, rfl, rfl, rfl, rfl, rfl⟩

/-- The shared result record of a reachable service always carries
`success: true` and an empty error message: the constructor sets them and
no method ever assigns either field. -/
theorem dacfxResult_success_invariant {svc : DacFxTestService}
    (h : Reachable svc) :
    svc.dacfxResult.success = true ∧ svc.dacfxResult.errorMessage = "" := by
  induction h with
  | init => exact ⟨rfl, rfl⟩
  | callStep c h ih =>
    cases c <;>
      simpa [runCall, exportBacpac, importBacpac, extractDacpac,
        createProjectFromDatabase, deployDacpac, generateDeployScript]
        using ih
  | generateDeployPlanStep a b u m h ih =>
    simpa [generateDeployPlanMethod] using ih
  | getOptionsFromProfileStep p h ih =>
    simpa [getOptionsFromProfile] using ih
  | validateStreamingJobStep a b h ih =>
    simpa [validateStreamingJobMethod] using ih

/-- C4: from any reachable service state, every method of the service
resolves with a result whose `success` is `true` and whose `errorMessage`
is empty; since every method is a total function that resolves, no method
reports a failure or rejects. -/
theorem C4_every_method_succeeds (svc : DacFxTestService)
    (h : Reachable svc) :
    (∀ c : DacFxCall,
      (readRef (runCall c svc).1 (runCall c svc).2).success = true ∧
      (readRef (runCall c svc).1 (runCall c svc).2).errorMessage = "") ∧
    (∀ a b u m, (generateDeployPlanMethod svc a b u m).1.success = true ∧
      (generateDeployPlanMethod svc a b u m).1.errorMessage = "") ∧
    (∀ p, (getOptionsFromProfile svc p).1.success = true ∧
      (getOptionsFromProfile svc p).1.errorMessage = "") ∧
    (∀ a b, (validateStreamingJobMethod svc a b).1.success = true ∧
      (validateStreamingJobMethod svc a b).1.errorMessage = "") := by
  obtain ⟨hs, he⟩ := dacfxResult_success_invariant h
  refine ⟨?_, ?_, ?_, ?_⟩
  · intro c
    cases c <;>
      simp [runCall, readRef, exportBacpac, importBacpac, extractDacpac,
        createProjectFromDatabase, deployDacpac, generateDeployScript, hs,
        he]
  · intro a b u m
    exact ⟨rfl, rfl⟩
  · intro p
    exact ⟨rfl, rfl⟩
  · intro a b
    exact ⟨rfl, rfl⟩

/-- C4 witness: the freshly constructed service is reachable and its
`exportBacpac` resolves with a successful result. -/
theorem C4_every_method_succeeds_witness :
    Reachable initService ∧
    (readRef (runCall (.exportCall "db" "file" "uri" .execute)
          initService).1
        (runCall (.exportCall "db" "file" "uri" .execute)
          initService).2).success = true :=
  ⟨Reachable.init,
    ((C4_every_method_succeeds initService Reachable.init).1
      (.exportCall "db" "file" "uri" .execute)).1⟩

/-- C8: each of the six `DacFxResult`-returning methods resolves with the
service's single shared `dacfxResult` record (not a fresh copy), so after
any second call the operation id observed through the record returned by
the first call is the second method's constant. -/
theorem C8_shared_record_aliasing (c1 c2 : DacFxCall)
    (svc : DacFxTestService) :
    (runCall c1 svc).1 = DacFxRef.shared ∧
    (readRef (runCall c1 svc).1
        (runCall c2 (runCall c1 svc).2).2).operationId
      = callConstant c2 := by
  constructor
  · cases c1 <;> rfl
  · cases c1 <;> cases c2 <;> rfl

/-- C5: the recommendations list built at construction has one record per
configured extension, in the configuration order, each with that extension
id, the `Application` reason and the `application` source tag, and
`doActivate` leaves the list unchanged. -/
theorem C5_static_recommendations_shape (l : List String) (i : Nat) :
    (staticRecommendations l).length = l.length ∧
    (staticRecommendations l)[i]? = (l[i]?).map (fun r =>
      { extensionId := r, reasonId := .Application,
        reasonText := defaultRecommendationText,
        source := "application" }) ∧
    doActivate (staticRecommendations l) = staticRecommendations l := by
  refine ⟨?_, ?_, rfl⟩
  · simp [staticRecommendations]
  · simp [staticRecommendations]
